import Mathlib

/-
Verification of the pickysettings configuration loader.

The definitions below are a shallow embedding of the Python sources:
  - pickysettings/core/setting.py     (Setting: path resolution and loading)
  - pickysettings/core/settings.py    (LazySettings: collection, merge, configure)
  - pickysettings/core/fields/*.py    (field model)
  - pickysettings/core/utils.py       (Store / Storable namespaces)
  - pickysettings/lib/utils.py        (paths_overlap)

Paths are modelled after pathlib.PurePosixPath: a flag for absoluteness and the
list of non-root parts (empty and single-dot segments are dropped by the
constructor, as pathlib does).  The filesystem, the table of known file
extensions (lib/extensions.py is generated code), the process environment and
the external import collaborator are parameters of the relevant definitions.
-/

namespace PickySettings

/-- Decidable equality for Except results, used to evaluate concrete runs. -/
instance exceptDecEq {e a : Type} [DecidableEq e] [DecidableEq a] :
    DecidableEq (Except e a) := fun x y =>
  match x, y with
  | .ok v, .ok w =>
      if h : v = w then isTrue (by rw [h])
      else isFalse (fun hcon => h (Except.ok.inj hcon))
  | .error v, .error w =>
      if h : v = w then isTrue (by rw [h])
      else isFalse (fun hcon => h (Except.error.inj hcon))
  | .ok _, .error _ => isFalse (fun hcon => Except.noConfusion hcon)
  | .error _, .ok _ => isFalse (fun hcon => Except.noConfusion hcon)

/-! ## Python string primitives

The Python code works with str.split, the in operator, str.join, str.upper
and str.startswith; they are modelled here over the character list of the
string so that every definition evaluates by kernel reduction. -/

/-- Python str.split with a single-character separator, on character lists:
splitting the empty string yields one empty part. -/
def splitOnChar (sep : Char) : List Char → List (List Char)
  | [] => [[]]
  | c :: rest =>
      match splitOnChar sep rest with
      | [] => if c = sep then [[], []] else [[c]]
      | h :: t => if c = sep then [] :: h :: t else (c :: h) :: t

/-- Python str.split with a single-character separator. -/
def strSplit (sep : Char) (s : String) : List String :=
  (splitOnChar sep s.toList).map String.mk

/-- The Python in operator for a character in a string. -/
def strContains (s : String) (c : Char) : Bool :=
  s.toList.contains c

/-- Python sep.join for a single-character separator. -/
def strJoin (sep : Char) (parts : List String) : String :=
  String.mk (List.intercalate [sep] (parts.map String.toList))

/-- Whether the string starts with the given character
(Python str.startswith). -/
def strStartsWith (s : String) (c : Char) : Bool :=
  match s.toList with
  | [] => false
  | a :: _ => a = c

/-- Python str.upper, the Store keytransform. -/
def pyUpper (s : String) : String :=
  String.mk (s.toList.map Char.toUpper)

/-! ## String helpers for pathlib suffix semantics -/

/-- Index of the last occurrence of a character in a list, if any
(Python str.rfind). -/
def lastIdxOf (c : Char) (cs : List Char) : Option Nat :=
  ((List.range cs.length).filter (fun i => cs.get? i = some c)).getLast?

/-- pathlib PurePath.suffix: the extension of the final component.  The last
dot counts only if it is neither the first nor the last character of the
name. -/
def nameSuffix (name : String) : String :=
  let cs := name.toList
  match lastIdxOf '.' cs with
  | none => ""
  | some i => if 0 < i ∧ i + 1 < cs.length then String.mk (cs.drop i) else ""

/-- pathlib PurePath.suffixes: empty if the name ends with a dot; otherwise the
leading dots are stripped and every remaining dot starts a suffix. -/
def nameSuffixes (name : String) : List String :=
  let cs := name.toList
  if cs.getLast? = some '.' then []
  else
    let stripped := String.mk (cs.dropWhile (fun c => c = '.'))
    (strSplit '.' stripped).tail.map (fun s => "." ++ s)

/-! ## Paths (pathlib.PurePosixPath) -/

/-- A POSIX path: whether it is anchored at the root, and its parts after the
root.  PurePosixPath normalization drops empty and single-dot segments. -/
structure PPath where
  isAbs : Bool
  parts : List String
deriving Repr, DecidableEq

/-- PurePosixPath(s): absolute iff the string starts with a slash; empty and
single-dot segments are dropped. -/
def parsePosixPath (s : String) : PPath :=
  ⟨strStartsWith s '/', (strSplit '/' s).filter (fun seg => seg ≠ "" ∧ seg ≠ ".")⟩

/-- The final component (PurePath.name); empty for a root or empty path. -/
def PPath.name (p : PPath) : String :=
  (p.parts.getLast?).getD ""

/-- PurePath.suffix of the path. -/
def PPath.suffix (p : PPath) : String :=
  nameSuffix p.name

/-- PurePath.suffixes of the path. -/
def PPath.suffixes (p : PPath) : List String :=
  nameSuffixes p.name

/-- PurePath.parts as Python sees them: the root is the first element of an
absolute path. -/
def PPath.pyParts (p : PPath) : List String :=
  if p.isAbs then "/" :: p.parts else p.parts

/-- PurePath.parent: drop the final component (the parent of a root or empty
path is itself). -/
def PPath.parent (p : PPath) : PPath :=
  ⟨p.isAbs, p.parts.dropLast⟩

/-- PurePath.relative_to: succeeds iff the base (with its anchor) is a segment
prefix; Python raises ValueError otherwise, modelled as none. -/
def PPath.relative_to (p base : PPath) : Option PPath :=
  if p.isAbs = base.isAbs ∧ base.parts.isPrefixOf p.parts then
    some ⟨false, p.parts.drop base.parts.length⟩
  else
    none

/-- PurePath.joinpath: an absolute argument replaces the base. -/
def PPath.joinpath (b r : PPath) : PPath :=
  if r.isAbs then r else ⟨b.isAbs, b.parts ++ r.parts⟩

/-- Path.absolute(): prepend the working directory to a relative path, without
any normalization. -/
def absolutize (cwd p : PPath) : PPath :=
  if p.isAbs then p else cwd.joinpath p

/-- PurePath.with_suffix(suf): replaces the suffix of the final component;
ValueError (modelled as none) when the name is empty. -/
def PPath.withSuffix (p : PPath) (suf : String) : Option PPath :=
  match p.parts.getLast? with
  | none => none
  | some n =>
      let old := nameSuffix n
      let base := String.mk (n.toList.take (n.length - old.length))
      some ⟨p.isAbs, p.parts.dropLast ++ [base ++ suf]⟩

/-! ## Filesystem model -/

/-- The fragment of the filesystem the resolution code consults, as the sets of
absolute paths of directories and of regular files. -/
structure FS where
  dirs : List PPath
  files : List PPath
deriving Repr, DecidableEq

/-- Path.is_file(). -/
def FS.isFile (fs : FS) (p : PPath) : Bool :=
  fs.files.contains p

/-- Path.is_dir(). -/
def FS.isDir (fs : FS) (p : PPath) : Bool :=
  fs.dirs.contains p

/-- Path.exists(). -/
def FS.pathExists (fs : FS) (p : PPath) : Bool :=
  fs.dirs.contains p || fs.files.contains p

/-- A filesystem is consistent when nothing is both a directory and a file. -/
def FS.consistentB (fs : FS) : Bool :=
  fs.dirs.all (fun d => ¬ fs.files.contains d)

/-! ## Exceptions raised during resolution (core/exceptions/load.py plus the
built-in RuntimeError / ValueError / IndexError that can escape). -/

/-- Exceptions that can arise from the Setting path-resolution code.  The class
hierarchy of core/exceptions/load.py is recorded by the two predicates below:
every constructor except runtimeError, valueError and indexError is a
SettingFileLoadError, and the invalid* / unsupported / unknown / settingFileDir /
settingFileDoesNotExist / settingFileIsNotFilePath ones are additionally
InvalidSettingFile subclasses. -/
inductive PyErr
  | runtimeError
  | valueError
  | indexError
  | basePathIsNotDir
  | basePathDoesNotExist
  | settingFileLoadErr
  | invalidFileFormat
  | unsupportedFileType
  | unknownFileType
  | settingFileDirDoesNotExist
  | settingFileDoesNotExist
  | settingFileIsNotFilePath
deriving Repr, DecidableEq

/-- Membership in the SettingFileLoadError class of core/exceptions/load.py. -/
def PyErr.isSettingFileLoadError : PyErr → Bool
  | .runtimeError => false
  | .valueError => false
  | .indexError => false
  | _ => true

/-- Membership in the InvalidSettingFile subclass of SettingFileLoadError. -/
def PyErr.isInvalidSettingFile : PyErr → Bool
  | .invalidFileFormat => true
  | .unsupportedFileType => true
  | .unknownFileType => true
  | .settingFileDirDoesNotExist => true
  | .settingFileDoesNotExist => true
  | .settingFileIsNotFilePath => true
  | _ => false

/-! ## Setting path resolution (core/setting.py) -/

/-- Translation of the nested raise_for_absolute_path of
Setting.get_absolute_file_path (setting.py lines 332-352): suffix-count
invariant, extension support against the generated EXTENSIONS table (exts),
parent-directory existence, file existence, file-not-directory. -/
def raise_for_absolute_path (exts : List String) (fs : FS) (p : PPath) :
    Except PyErr Unit :=
  if p.suffixes.length ≠ 1 then .error .runtimeError
  else if p.suffix ≠ ".py" then
    if exts.contains p.suffix then .error .unsupportedFileType
    else .error .unknownFileType
  else if ¬ fs.pathExists p.parent then .error .settingFileDirDoesNotExist
  else if ¬ fs.pathExists p then .error .settingFileDoesNotExist
  else if ¬ fs.isFile p then .error .settingFileIsNotFilePath
  else .ok ()

/-- Setting.absolute_base_path (setting.py lines 100-124): the absolute form of
the base directory, checked to exist and to not be a file; none when no base
directory was supplied. -/
def absolute_base_path (cwd : PPath) (fs : FS) (base_dir : Option PPath) :
    Except PyErr (Option PPath) :=
  match base_dir with
  | none => .ok none
  | some bp =>
      let abp := absolutize cwd bp
      if fs.isFile abp then .error .basePathIsNotDir
      else if ¬ fs.pathExists abp then .error .basePathDoesNotExist
      else .ok (some abp)

/-- Setting.get_absolute_file_path (setting.py lines 326-407), the branch
structure reproduced exactly.  With a base directory: an absolute candidate
must be relative to the absolute base (plain SettingFileLoadError otherwise); a
relative candidate is first tried relative to the literal base, then its
absolute form relative to the absolute base, and otherwise concatenated onto
the base; the chosen absolute path is validated by raise_for_absolute_path. -/
def get_absolute_file_path (exts : List String) (cwd : PPath) (fs : FS)
    (base_dir : Option PPath) (file_path : PPath) : Except PyErr PPath :=
  match base_dir with
  | none =>
      let afp := absolutize cwd file_path
      match raise_for_absolute_path exts fs afp with
      | .error e => .error e
      | .ok _ => .ok afp
  | some bp =>
      let abp := absolutize cwd bp
      if fs.isFile abp then .error .basePathIsNotDir
      else if ¬ fs.pathExists abp then .error .basePathDoesNotExist
      else if file_path.isAbs then
        match file_path.relative_to abp with
        | none => .error .settingFileLoadErr
        | some _ =>
            match raise_for_absolute_path exts fs file_path with
            | .error e => .error e
            | .ok _ => .ok file_path
      else
        match file_path.relative_to bp with
        | some rel =>
            let afp := absolutize cwd (bp.joinpath rel)
            match raise_for_absolute_path exts fs afp with
            | .error e => .error e
            | .ok _ => .ok afp
        | none =>
            match (absolutize cwd file_path).relative_to abp with
            | some rel =>
                let afp := abp.joinpath rel
                match raise_for_absolute_path exts fs afp with
                | .error e => .error e
                | .ok _ => .ok afp
            | none =>
                let afp := absolutize cwd (bp.joinpath file_path)
                match raise_for_absolute_path exts fs afp with
                | .error e => .error e
                | .ok _ => .ok afp

/-- The join_with_suffix helper of Setting.get_file_path (setting.py lines
287-289): join the dot-parts with slashes and attach the default extension;
pathlib raises ValueError when the joined path has an empty name. -/
def join_with_suffix (parts : List String) : Except PyErr PPath :=
  match (parsePosixPath (strJoin '/' parts)).withSuffix ".py" with
  | none => .error .valueError
  | some p => .ok p

/-- Setting.get_file_path (setting.py lines 266-324): disambiguation of the raw
specification string, including the 2-Component fallback, which retries the
string as a literal file path only when the side validation of the synthesized
module path fails with a SettingFileLoadError. -/
def get_file_path (exts : List String) (cwd : PPath) (fs : FS)
    (base_dir : Option PPath) (settings_file : String) : Except PyErr PPath :=
  if strContains settings_file '.' then
    let parts := strSplit '.' settings_file
    if strContains settings_file '/' then
      if parts.length ≠ 2 then .error .invalidFileFormat
      else .ok (parsePosixPath settings_file)
    else
      match parts with
      | [a, b] =>
          if a = "" then .error .unsupportedFileType
          else if b = "" then .error .invalidFileFormat
          else
            match join_with_suffix [a, b] with
            | .error e => .error e
            | .ok path =>
                match get_absolute_file_path exts cwd fs base_dir path with
                | .error e =>
                    if e.isSettingFileLoadError then
                      .ok (parsePosixPath settings_file)
                    else .error e
                | .ok _ => .ok path
      | _ => join_with_suffix parts
  else
    if strContains settings_file '/' then .error .settingFileIsNotFilePath
    else
      match (parsePosixPath settings_file).withSuffix ".py" with
      | none => .error .valueError
      | some p => .ok p

/-- Setting.get_module_file_path (setting.py lines 409-433): the absolute file
path expressed relative to the working directory, extension stripped, segments
joined with dots; ValueError when it is not under the working directory. -/
def get_module_file_path (cwd : PPath) (afp : PPath) : Except PyErr String :=
  match afp.relative_to cwd with
  | none => .error .valueError
  | some rel =>
      match rel.withSuffix "" with
      | none => .error .valueError
      | some stripped => .ok (strJoin '.' stripped.parts)

/-! ## Overlap detection (lib/utils.py paths_overlap) -/

/-- The while loop at the end of paths_overlap: every remaining candidate
segment must equal its counterpart in the base list; Python indexes the base
list and raises IndexError when it is exhausted first. -/
def overlapScan : List String → List String → Except PyErr Bool
  | [], _ => .ok true
  | _ :: _, [] => .error .indexError
  | a :: as, b :: bs => if b ≠ a then .ok false else overlapScan as bs

/-- Translation of paths_overlap (lib/utils.py lines 14-105): reject paths that
are relative to one another (ValueError), reverse both segment lists, find the
first occurrence of the base path's final segment in the reversed candidate,
and compare the remainder pairwise against the reversed base. -/
def paths_overlap (base_path path : PPath) : Except PyErr Bool :=
  if (path.relative_to base_path).isSome then .error .valueError
  else
    let reversed_parts := path.pyParts.reverse
    let reversed_base_parts := base_path.pyParts.reverse
    match base_path.pyParts.getLast? with
    | none => .error .indexError
    | some lastBase =>
        match reversed_parts.findIdx? (fun seg => seg = lastBase) with
        | none => .ok false
        | some i =>
            overlapScan (reversed_parts.drop (i + 1)) (reversed_base_parts.drop 1)

/-! ## Field model (core/fields) -/

/-- Field-configuration errors (the FieldConfigurationError codes of
core/exceptions/configuration.py) plus the built-in AttributeError that escapes
IntField._validate. -/
inductive FieldErr
  | exceedsMax
  | exceedsMin
  | expectedType
  | nonConfigurableField
  | attributeError
deriving Repr, DecidableEq

/-- ValueField.configure and the value setter it delegates to (fields/value.py
lines 67-81): check configurability, validate the candidate, then assign.  The
result is the field value after the call paired with the exception if one was
raised; an exception propagates before the assignment, leaving the prior value
in place. -/
def value_field_configure {α : Type} (validate : α → Except FieldErr α)
    (configurable : Bool) (value candidate : α) : α × Option FieldErr :=
  if ¬ configurable then (value, some .nonConfigurableField)
  else
    match validate candidate with
    | .error e => (value, some e)
    | .ok v => (v, none)

/-- Python truthiness of an optional numeric bound: None and 0 are both
falsy. -/
def boundTruthy (b : Option Int) : Bool :=
  match b with
  | none => false
  | some m => m ≠ 0

/-- NumericField._validate (fields/value.py lines 130-136) for a numeric
candidate: each bound is enforced only when it is truthy, so a bound equal to 0
is skipped. -/
def numeric_validate (mn mx : Option Int) (v : Int) : Except FieldErr Int :=
  if boundTruthy mx ∧ v > mx.getD 0 then .error .exceedsMax
  else if boundTruthy mn ∧ v < mn.getD 0 then .error .exceedsMin
  else .ok v

/-- IntField._validate (fields/value.py lines 139-151) on a candidate that
converts cleanly to int: the float conversion and the truncation check pass,
and the method then evaluates super(IntField, self).validate(value).  No class
in the MRO (NumericField, ValueField, BaseField, object) defines a method named
validate - they define only _validate - so the attribute lookup raises
AttributeError and the bounds of NumericField._validate are never reached. -/
def int_validate (_mn _mx : Option Int) (_v : Int) : Except FieldErr Int :=
  .error .attributeError

/-- The flags of one child field of a SetField. -/
structure ChildField where
  optional : Bool
  configurable : Bool
deriving Repr, DecidableEq

/-- SetField.optional (fields/set.py lines 56-68): all([v.optional for k, v in
self.items()]). -/
def set_field_optional (children : List ChildField) : Bool :=
  children.all (fun c => c.optional)

/-- SetField.configurable (fields/set.py lines 70-83): the explicitly
constructed value when one was given, otherwise any([v.configurable for k, v in
self.items()]). -/
def set_field_configurable (explicit : Option Bool)
    (children : List ChildField) : Bool :=
  match explicit with
  | none => children.any (fun c => c.configurable)
  | some b => b

/-! ## Store and Storable (core/utils.py) -/

/-- Exceptions raised by the Store and Storable accessors. -/
inductive AccessErr
  | keyError (key : String)
  | attributeError (msg : String)
deriving Repr, DecidableEq

/-- Plain dict lookup: KeyError when the key is missing. -/
def dict_getitem {α : Type} (st : List (String × α)) (key : String) :
    Except AccessErr α :=
  match st.lookup key with
  | some v => .ok v
  | none => .error (.keyError key)

/-- Store.__getitem__ (core/utils.py lines 10-15): the key is upper-cased by
keytransform, the dict KeyError is caught and re-raised as an AttributeError
whose message mentions the upper-cased key. -/
def store_getitem {α : Type} (st : List (String × α)) (key : String) :
    Except AccessErr α :=
  match dict_getitem st (pyUpper key) with
  | .ok v => .ok v
  | .error _ => .error (.attributeError ("You did not set " ++ (pyUpper key) ++ " setting"))

/-- Storable.__getattr__ (core/utils.py lines 51-58): fall back from the store
lookup to ordinary object attribute lookup (objAttrs), and on a second failure
raise an AttributeError formatting the original, un-normalized key. -/
def storable_getattr {α : Type} (st objAttrs : List (String × α))
    (key : String) : Except AccessErr α :=
  match store_getitem st key with
  | .ok v => .ok v
  | .error _ =>
      match objAttrs.lookup key with
      | some v => .ok v
      | none =>
          .error (.attributeError ("You did not set " ++ key ++ " setting"))

/-- Store.__setitem__ (core/utils.py lines 20-21): write under the upper-cased
key with dict semantics - replace an existing entry in place, else append. -/
def store_setitem {α : Type} (st : List (String × α)) (key : String) (v : α) :
    List (String × α) :=
  if st.any (fun p => p.1 = pyUpper key) then
    st.map (fun p => if p.1 = pyUpper key then (pyUpper key, v) else p)
  else st ++ [(pyUpper key, v)]

/-! ## LazySettings (core/settings.py) -/

/-- A stored field as produced by loading a settings module: every plain value
harvested from the module is wrapped in a ConstantField by Setting.__setitem__
(setting.py lines 208-211). -/
structure ConstF (V : Type) where
  value : V
deriving Repr, DecidableEq

/-- Setting.load commits each harvested (name, value) pair into the Setting's
own case-insensitive store (setting.py lines 259-264). -/
def setting_fields {V : Type} (vals : List (String × V)) :
    List (String × ConstF V) :=
  vals.foldl (fun st kv => store_setitem st kv.1 ⟨kv.2⟩) []

/-- Errors of the collection stage (core/exceptions/compose.py). -/
inductive CollectErr
  | envVarsNotFound (keys : List String)
  | settingsNotConfigured
deriving Repr, DecidableEq

/-- LazySettings.add (settings.py lines 297-313): append each specification not
already present, comparing raw specification strings only. -/
def add_specs (st : List String) (vals : List String) : List String :=
  vals.foldl (fun acc v => if acc.contains v then acc else acc ++ [v]) st

/-- LazySettings.collect (settings.py lines 358-394 with the helpers at lines
315-356): add the environment-named sources first, then the parsed command-line
values, then the specifications given at initialization; missing environment
keys are fatal only under strict validation; zero collected specifications is
always fatal. -/
def collect (strict : Bool) (environ : String → Option String)
    (env_keys : List String) (cli_values : List (Option String))
    (init_specs : List String) : Except CollectErr (List String) :=
  let missing := env_keys.filter (fun k => (environ k).isNone)
  let after_env := add_specs [] (env_keys.filterMap environ)
  if strict ∧ missing ≠ [] then .error (.envVarsNotFound missing)
  else
    let after_cli := add_specs after_env (cli_values.filterMap id)
    let allSpecs := add_specs after_cli init_specs
    if allSpecs = [] then .error .settingsNotConfigured
    else .ok allSpecs

/-- The original cause carried by the normalized InvalidSettingFile that
Setting.load raises: a resolution error or an import failure. -/
inductive LoadCause
  | resolution (e : PyErr)
  | importFailure
deriving Repr, DecidableEq

/-- The outcome of Setting.load for one source: a normalized InvalidSettingFile
wrapping its original cause, or an exception that escaped unwrapped. -/
inductive SettingLoadErr
  | wrapped (cause : LoadCause)
  | unwrapped (e : PyErr)
deriving Repr, DecidableEq

/-- Setting.module_file_path: the composition of get_file_path,
get_absolute_file_path and get_module_file_path (setting.py lines 126-206; the
caching is irrelevant for this pure model). -/
def resolve_module (exts : List String) (cwd : PPath) (fs : FS)
    (base_dir : Option PPath) (settings_file : String) : Except PyErr String :=
  match get_file_path exts cwd fs base_dir settings_file with
  | .error e => .error e
  | .ok fp =>
      match get_absolute_file_path exts cwd fs base_dir fp with
      | .error e => .error e
      | .ok afp => get_module_file_path cwd afp

/-- Setting.load (setting.py lines 216-264): a resolution failure of the
InvalidSettingFile kind is re-raised as a normalized InvalidSettingFile
wrapping the original, an import failure likewise; any other exception (plain
SettingFileLoadError, base-path errors, ValueError) propagates as-is; on
success the harvested names are committed as constant fields. -/
def setting_load {V : Type} (resolution : Except PyErr String)
    (importer : String → Except Unit (List (String × V))) :
    Except SettingLoadErr (List (String × ConstF V)) :=
  match resolution with
  | .error e =>
      if e.isInvalidSettingFile then .error (.wrapped (.resolution e))
      else .error (.unwrapped e)
  | .ok m =>
      match importer m with
      | .error _ => .error (.wrapped .importFailure)
      | .ok vals => .ok (setting_fields vals)

/-- Failure of the whole load pass: an exception that escaped the loop, or the
aggregate SettingsLoadError raised at its end. -/
inductive PassErr
  | propagated (e : PyErr)
  | aggregate (errors : List LoadCause)
deriving Repr, DecidableEq

/-- The loop of LazySettings.load (settings.py lines 277-292): a source whose
load raises InvalidSettingFile is removed from the list and its error recorded,
a loaded source is merged into the store immediately and kept, and any other
exception propagates and aborts the pass.  The accumulator carries the store,
the recorded errors, and the count of sources that remain loaded. -/
def load_pass_go {V : Type} :
    List (Except SettingLoadErr (List (String × ConstF V))) →
    List (String × ConstF V) → List LoadCause → Nat →
    Except PyErr (List (String × ConstF V) × List LoadCause × Nat)
  | [], st, errs, succ => .ok (st, errs, succ)
  | .ok fields :: rest, st, errs, succ =>
      load_pass_go rest
        (fields.foldl (fun acc kv => store_setitem acc kv.1 kv.2) st)
        errs (succ + 1)
  | .error (.wrapped c) :: rest, st, errs, succ =>
      load_pass_go rest st (errs ++ [c]) succ
  | .error (.unwrapped e) :: _, _, _, _ => .error e

/-- LazySettings.load (settings.py lines 236-295): run the loop, then raise the
aggregate SettingsLoadError when any error was recorded and validation is
strict or no source remains; in lenient mode with at least one success the
recorded errors are only warned about, returned here alongside the store. -/
def load_pass {V : Type} (strict : Bool)
    (results : List (Except SettingLoadErr (List (String × ConstF V)))) :
    Except PassErr (List (String × ConstF V) × List LoadCause) :=
  match load_pass_go results [] [] 0 with
  | .error e => .error (.propagated e)
  | .ok (st, errs, succ) =>
      if errs ≠ [] ∧ (strict ∨ succ = 0) then .error (.aggregate errs)
      else .ok (st, errs)

/-- LazySettings setup followed by a key read (settings.py setup and
__getitem__, which returns the unwrapped value of the stored field): collect
the specifications, load every source through the per-specification loader,
and look the key up in the merged namespace. -/
def settings_value {V : Type} (strict : Bool)
    (environ : String → Option String) (env_keys : List String)
    (cli_values : List (Option String)) (init_specs : List String)
    (loader : String → Except SettingLoadErr (List (String × V)))
    (key : String) : Option V :=
  match collect strict environ env_keys cli_values init_specs with
  | .error _ => none
  | .ok specs =>
      match load_pass strict (specs.map (fun s => (loader s).map setting_fields)) with
      | .error _ => none
      | .ok (st, _) =>
          match store_getitem st key with
          | .ok f => some f.value
          | .error _ => none

/-- Field-configuration errors raised by LazySettings.configure. -/
inductive CfgErr
  | expectedType (field : String)
  | cannotAddField (field : String)
  | nonConfigurableField (field : String)
deriving Repr, DecidableEq

/-- A plain configurable value field as stored in the namespace, for the
configure model. -/
structure PlainField (V : Type) where
  value : V
  configurable : Bool
deriving Repr, DecidableEq

/-- LazySettings.configure (settings.py lines 162-218), translated as written:
after forcing setup, the method unconditionally raises
FieldConfigurationError.ExpectedType with the literal field name given on lines
186-189, so the override-processing loop on lines 191-218 is dead code and no
override is ever examined. -/
def lazy_settings_configure {V : Type} (_st : List (String × PlainField V))
    (_overrides : List (String × V)) :
    Except CfgErr (List (String × PlainField V)) :=
  .error (.expectedType "test")

/-- The unreachable remainder of LazySettings.configure (settings.py lines
191-218), translated for a namespace of plain non-Set, non-constant fields
whose validators accept every candidate: a key absent from the namespace raises
CannotAddField, a non-configurable field raises NonConfigurableField, and
otherwise the field's configure replaces its value. -/
def configure_loop {V : Type} (st : List (String × PlainField V))
    (overrides : List (String × V)) :
    Except CfgErr (List (String × PlainField V)) :=
  overrides.foldlM (fun acc kv =>
    match acc.lookup (pyUpper kv.1) with
    | none => .error (.cannotAddField kv.1)
    | some f =>
        if ¬ f.configurable then .error (.nonConfigurableField kv.1)
        else .ok (store_setitem acc kv.1 { f with value := kv.2 })) st

/-! ## Helper lemmas -/

lemma consistent_isFile {fs : FS} (hfs : fs.consistentB = true) {p : PPath}
    (hd : fs.isDir p = true) : fs.isFile p = false := by
  have hmem : p ∈ fs.dirs := by
    simpa [FS.isDir, List.contains_iff_exists_mem_beq, beq_iff_eq] using hd
  have := (List.all_eq_true.mp hfs) p hmem
  simpa [FS.isFile] using this

lemma pathExists_of_not_file {fs : FS} {p : PPath}
    (hex : fs.pathExists p = true) (hf : fs.isFile p = false) :
    fs.isDir p = true := by
  simp only [FS.pathExists, Bool.or_eq_true] at hex
  rcases hex with h | h
  · exact h
  · rw [FS.isFile] at hf
    rw [h] at hf
    cases hf

/-! ## Claim C5: the ordered validation taxonomy -/

/-- The ordered validation-failure taxonomy as the specification states it,
written from the claim's wording for comparison with
raise_for_absolute_path: bad suffix count, supported-set miss with a
known-extensions hit, unknown extension, missing parent directory, missing
file, existing-but-directory; first applicable wins. -/
def spec_validation_taxonomy (exts : List String) (fs : FS) (p : PPath) :
    Except PyErr Unit :=
  if p.suffixes.length ≠ 1 then .error .runtimeError
  else if p.suffix ≠ ".py" ∧ exts.contains p.suffix then
    .error .unsupportedFileType
  else if p.suffix ≠ ".py" ∧ ¬ exts.contains p.suffix then
    .error .unknownFileType
  else if ¬ fs.pathExists p.parent then .error .settingFileDirDoesNotExist
  else if ¬ fs.pathExists p then .error .settingFileDoesNotExist
  else if fs.isDir p then .error .settingFileIsNotFilePath
  else .ok ()

/-- Claim C5: for every absolute candidate path, validation raises exactly the
first applicable failure of the fixed order stated in the specification -
suffix-count invariant, unsupported-but-known extension, unknown extension,
missing parent directory, missing file, existing-but-directory - and a path
passing all checks validates successfully. -/
theorem raise_for_absolute_path_taxonomy (exts : List String) (fs : FS)
    (p : PPath) (hfs : fs.consistentB = true) :
    raise_for_absolute_path exts fs p = spec_validation_taxonomy exts fs p := by
  unfold raise_for_absolute_path spec_validation_taxonomy
  by_cases h1 : p.suffixes.length ≠ 1
  · simp [h1]
  · by_cases h2 : p.suffix = ".py"
    · by_cases h3 : fs.pathExists p.parent
      · by_cases h4 : fs.pathExists p
        · by_cases h5 : fs.isFile p
          · have hd : fs.isDir p = false := by
              by_contra hcon
              have := consistent_isFile hfs (by simpa using hcon)
              simp [h5] at this
            simp [h1, h2, h3, h4, h5, hd]
          · have hd : fs.isDir p = true :=
              pathExists_of_not_file h4 (by simpa using h5)
            simp [h1, h2, h3, h4, h5, hd]
        · simp [h1, h2, h3, h4]
      · simp [h1, h2, h3]
    · by_cases hk : exts.contains p.suffix
      · rw [if_neg h1, if_neg h1, if_pos h2, if_pos hk, if_pos ⟨h2, hk⟩]
      · rw [if_neg h1, if_neg h1, if_pos h2, if_neg hk,
          if_neg (fun hcon => hk hcon.2), if_pos ⟨h2, hk⟩]

/-- Claim C5 witness: a concrete run through the taxonomy. -/
theorem raise_for_absolute_path_taxonomy_witness :
    FS.consistentB ⟨[⟨true, ["root"]⟩], [⟨true, ["root", "dev.py"]⟩]⟩ = true
    ∧ raise_for_absolute_path [".ini"] ⟨[⟨true, ["root"]⟩], [⟨true, ["root", "dev.py"]⟩]⟩
        ⟨true, ["root", "dev.ini"]⟩
      = spec_validation_taxonomy [".ini"] ⟨[⟨true, ["root"]⟩], [⟨true, ["root", "dev.py"]⟩]⟩
        ⟨true, ["root", "dev.ini"]⟩ :=
  ⟨by decide,
   raise_for_absolute_path_taxonomy [".ini"] _ _ (by decide)⟩

/-! ## Claim C8: configure is all-or-nothing per field -/

/-- Claim C8: for every value field and candidate, a failing configure (failed
validation or non-configurability) leaves the stored value unchanged, and a
successful configure replaces it with the validated candidate. -/
theorem value_field_configure_atomic {α : Type}
    (validate : α → Except FieldErr α) (c : Bool) (x v : α) :
    (∀ e, (value_field_configure validate c x v).2 = some e →
        (value_field_configure validate c x v).1 = x)
    ∧ ((value_field_configure validate c x v).2 = none →
        ∃ w, validate v = .ok w ∧ (value_field_configure validate c x v).1 = w) := by
  unfold value_field_configure
  by_cases hc : c
  · cases hval : validate v with
    | error e => simp [hc, hval]
    | ok w => simp [hc, hval]
  · simp [hc]

/-- Claim C8 witness: the specification's own example - a numeric field with
value 5 and max 10 rejects 15 and a subsequent read still returns 5. -/
theorem value_field_configure_atomic_witness :
    (value_field_configure (numeric_validate none (some 10)) true (5 : Int) 15).2
        = some FieldErr.exceedsMax
    ∧ (value_field_configure (numeric_validate none (some 10)) true (5 : Int) 15).1 = 5 :=
  ⟨by decide,
   (value_field_configure_atomic (numeric_validate none (some 10)) true 5 15).1
     FieldErr.exceedsMax (by decide)⟩

/-! ## Claim C9: SetField flag derivation -/

/-- Claim C9: a Set field's derived optional flag is the logical AND over its
children's optional flags, and, when configurability was not set explicitly at
construction, its effective configurable flag is the logical OR over its
children's configurable flags; an explicit value wins. -/
theorem set_field_flag_derivation (explicit : Option Bool)
    (children : List ChildField) :
    set_field_optional children
        = children.foldr (fun c acc => c.optional && acc) true
    ∧ (explicit = none → set_field_configurable explicit children
        = children.foldr (fun c acc => c.configurable || acc) false)
    ∧ (∀ b, explicit = some b → set_field_configurable explicit children = b) := by
  refine ⟨?_, ?_, ?_⟩
  · induction children with
    | nil => rfl
    | cons hd tl ih => simp [set_field_optional, List.all_cons] at ih ⊢; simp [ih]
  · intro hex
    subst hex
    induction children with
    | nil => rfl
    | cons hd tl ih => simp [set_field_configurable, List.any_cons] at ih ⊢; simp [ih]
  · intro b hex
    subst hex
    rfl

/-- Claim C9 witness: the specification's asymmetry examples - one optional and
one required child yield optional = false, one configurable and one
non-configurable child with no explicit override yield configurable = true. -/
theorem set_field_flag_derivation_witness :
    (set_field_optional [⟨true, false⟩, ⟨false, true⟩]
        = [(⟨true, false⟩ : ChildField), ⟨false, true⟩].foldr
            (fun c acc => c.optional && acc) true)
    ∧ (set_field_configurable none [⟨true, false⟩, ⟨false, true⟩]
        = [(⟨true, false⟩ : ChildField), ⟨false, true⟩].foldr
            (fun c acc => c.configurable || acc) false)
    ∧ set_field_optional [⟨true, false⟩, ⟨false, true⟩] = false
    ∧ set_field_configurable none [⟨true, false⟩, ⟨false, true⟩] = true :=
  ⟨(set_field_flag_derivation none _).1,
   (set_field_flag_derivation none _).2.1 rfl,
   by decide, by decide⟩

/-! ## Claim C10: missing-key access errors -/

/-- Claim C10 counterexample: attribute access through Storable for the missing
key foo produces the message with the original lower-case key, not the
upper-cased one the claim requires. -/
theorem storable_getattr_message_not_uppercased :
    storable_getattr (α := Int) [] [] "foo"
        = .error (.attributeError "You did not set foo setting")
    ∧ ("You did not set foo setting" : String) ≠ "You did not set FOO setting" := by
  exact ⟨rfl, by decide⟩

/-- Claim C10 amended: a missing key is always reported as AttributeError and
never as KeyError, and the lookup itself always normalizes the key to upper
case; the message of key access (Store.__getitem__) uses the upper-cased key,
while the message of attribute access (Storable.__getattr__) uses the original
un-normalized key. -/
theorem store_missing_key_access {α : Type} (st objAttrs : List (String × α))
    (key : String) (hmiss : st.lookup (pyUpper key) = none) :
    store_getitem st key
        = .error (.attributeError ("You did not set " ++ (pyUpper key) ++ " setting"))
    ∧ (objAttrs.lookup key = none →
        storable_getattr st objAttrs key
          = .error (.attributeError ("You did not set " ++ key ++ " setting")))
    ∧ (∀ k2, store_getitem st key ≠ .error (.keyError k2)) := by
  have hget : store_getitem st key
      = .error (.attributeError ("You did not set " ++ (pyUpper key) ++ " setting")) := by
    unfold store_getitem dict_getitem
    rw [hmiss]
  refine ⟨hget, ?_, ?_⟩
  · intro hobj
    unfold storable_getattr
    rw [hget, hobj]
  · intro k2
    rw [hget]
    simp

/-- Claim C10 witness: a concrete missing key. -/
theorem store_missing_key_access_witness :
    store_getitem (α := Int) [("BAR", 0)] "foo"
        = .error (.attributeError ("You did not set " ++ (pyUpper "foo") ++ " setting"))
    ∧ storable_getattr (α := Int) [("BAR", 0)] [] "foo"
        = .error (.attributeError ("You did not set " ++ "foo" ++ " setting")) :=
  ⟨(store_missing_key_access [("BAR", 0)] [] "foo" (by decide)).1,
   (store_missing_key_access [("BAR", 0)] [] "foo" (by decide)).2.1 rfl⟩

/-! ## Claim C1: LazySettings.configure -/

/-- Claim C1: LazySettings.configure never reaches its override-processing
loop: it unconditionally raises the ExpectedType error planted at
settings.py lines 186-189, even for an override that names an existing,
configurable, non-constant field with a valid value - while the dead loop
below it (here configure_loop) would have succeeded and replaced the value as
the documentation describes. -/
theorem lazy_settings_configure_always_raises :
    lazy_settings_configure (V := Int) [("FOO", ⟨1, true⟩)] [("FOO", 2)]
        = .error (.expectedType "test")
    ∧ configure_loop (V := Int) [("FOO", ⟨1, true⟩)] [("FOO", 2)]
        = .ok [("FOO", ⟨2, true⟩)] :=
  ⟨rfl, by decide⟩

/-! ## Claim C7: numeric bound enforcement -/

/-- Claim C7: a PositiveIntField (min = 0) does not reject a negative
candidate with ExceedsMin: IntField._validate ends in an AttributeError (its
call to the nonexistent method validate), the field keeps its prior value, and
even NumericField._validate itself would accept the negative because the
bound 0 is falsy and the min check is skipped. -/
theorem positive_int_rejection_broken :
    (value_field_configure (int_validate (some 0) none) true (5 : Int) (-5)).2
        = some FieldErr.attributeError
    ∧ (value_field_configure (int_validate (some 0) none) true (5 : Int) (-5)).1 = 5
    ∧ numeric_validate (some 0) none (-5) = .ok (-5)
    ∧ numeric_validate (some 0) none (-5) ≠ .error FieldErr.exceedsMin := by
  refine ⟨by decide, by decide, by decide, by decide⟩

/-! ## Claim C4: overlap is not consulted during resolution -/

/-- Claim C4 counterexample: a relative candidate that structurally overlaps
the base directory (per paths_overlap) without being relative to it is NOT
rejected - get_absolute_file_path concatenates it onto the base and resolves
successfully, where the claim requires an InvalidSpecification failure. -/
theorem overlap_not_rejected_counterexample :
    paths_overlap ⟨false, ["app", "settings"]⟩ ⟨false, ["settings", "dev.py"]⟩
        = .ok true
    ∧ PPath.relative_to ⟨false, ["settings", "dev.py"]⟩
        ⟨false, ["app", "settings"]⟩ = none
    ∧ PPath.relative_to
        (absolutize ⟨true, ["root"]⟩ ⟨false, ["settings", "dev.py"]⟩)
        (absolutize ⟨true, ["root"]⟩ ⟨false, ["app", "settings"]⟩) = none
    ∧ get_absolute_file_path [] ⟨true, ["root"]⟩
        ⟨[⟨true, ["root", "app", "settings"]⟩,
          ⟨true, ["root", "app", "settings", "settings"]⟩],
         [⟨true, ["root", "app", "settings", "settings", "dev.py"]⟩]⟩
        (some ⟨false, ["app", "settings"]⟩) ⟨false, ["settings", "dev.py"]⟩
        = .ok ⟨true, ["root", "app", "settings", "settings", "dev.py"]⟩ := by
  decide

/-- Claim C4 amended: when a non-absolute candidate is relative neither to the
base path nor, in absolute form, to the absolute base path, it is concatenated
onto the base and validated - unconditionally, whether or not the two paths
structurally overlap; no overlap check and no InvalidSpecification rejection
occur in resolution. -/
theorem unrelated_path_concatenated (exts : List String) (cwd : PPath)
    (fs : FS) (bp fp : PPath)
    (habs : fp.isAbs = false)
    (hnf : fs.isFile (absolutize cwd bp) = false)
    (hex : fs.pathExists (absolutize cwd bp) = true)
    (h1 : fp.relative_to bp = none)
    (h2 : (absolutize cwd fp).relative_to (absolutize cwd bp) = none) :
    get_absolute_file_path exts cwd fs (some bp) fp
      = (raise_for_absolute_path exts fs
            (absolutize cwd (bp.joinpath fp))).map
          (fun _ => absolutize cwd (bp.joinpath fp)) := by
  simp only [get_absolute_file_path, hnf, hex, habs, h1, h2,
    Bool.false_eq_true, if_false, Bool.not_true, Bool.true_eq_false,
    not_false_iff, ite_true, ite_false]
  cases hr : raise_for_absolute_path exts fs (absolutize cwd (bp.joinpath fp)) with
  | error e => simp [hr, Except.map]
  | ok u => simp [hr, Except.map]

/-- Claim C4 amended witness: the counterexample input run through the amended
statement. -/
theorem unrelated_path_concatenated_witness :
    get_absolute_file_path [] ⟨true, ["root"]⟩
        ⟨[⟨true, ["root", "app", "settings"]⟩,
          ⟨true, ["root", "app", "settings", "settings"]⟩],
         [⟨true, ["root", "app", "settings", "settings", "dev.py"]⟩]⟩
        (some ⟨false, ["app", "settings"]⟩) ⟨false, ["settings", "dev.py"]⟩
      = (raise_for_absolute_path []
            ⟨[⟨true, ["root", "app", "settings"]⟩,
              ⟨true, ["root", "app", "settings", "settings"]⟩],
             [⟨true, ["root", "app", "settings", "settings", "dev.py"]⟩]⟩
            (absolutize ⟨true, ["root"]⟩
              (PPath.joinpath ⟨false, ["app", "settings"]⟩
                ⟨false, ["settings", "dev.py"]⟩))).map
          (fun _ => absolutize ⟨true, ["root"]⟩
              (PPath.joinpath ⟨false, ["app", "settings"]⟩
                ⟨false, ["settings", "dev.py"]⟩)) :=
  unrelated_path_concatenated [] ⟨true, ["root"]⟩
    ⟨[⟨true, ["root", "app", "settings"]⟩,
      ⟨true, ["root", "app", "settings", "settings"]⟩],
     [⟨true, ["root", "app", "settings", "settings", "dev.py"]⟩]⟩
    ⟨false, ["app", "settings"]⟩ ⟨false, ["settings", "dev.py"]⟩
    (by decide) (by decide) (by decide) (by decide) (by decide)

/-! ## Claim C6: wrapping and partial-failure isolation -/

/-- Whether a per-source load outcome is free of exceptions that escape the
InvalidSettingFile handler of the load loop. -/
def noUnwrapped {V : Type}
    (r : Except SettingLoadErr (List (String × ConstF V))) : Bool :=
  match r with
  | .error (.unwrapped _) => false
  | _ => true

/-- The causes recorded for the sources whose load raised the normalized
InvalidSettingFile, in order. -/
def wrapped_causes {V : Type}
    (results : List (Except SettingLoadErr (List (String × ConstF V)))) :
    List LoadCause :=
  results.filterMap (fun r =>
    match r with
    | .error (.wrapped c) => some c
    | _ => none)

/-- The field lists of the sources that loaded, in order. -/
def ok_sources {V : Type}
    (results : List (Except SettingLoadErr (List (String × ConstF V)))) :
    List (List (String × ConstF V)) :=
  results.filterMap (fun r =>
    match r with
    | .ok f => some f
    | _ => none)

/-- Merging one loaded source into the namespace (LazySettings.update). -/
def merge_into {V : Type} (st fields : List (String × ConstF V)) :
    List (String × ConstF V) :=
  fields.foldl (fun acc kv => store_setitem acc kv.1 kv.2) st

lemma load_pass_go_no_unwrapped {V : Type}
    (results : List (Except SettingLoadErr (List (String × ConstF V))))
    (hall : results.all noUnwrapped = true) :
    ∀ st errs succ, load_pass_go results st errs succ
      = .ok ((ok_sources results).foldl merge_into st,
             errs ++ wrapped_causes results,
             succ + (ok_sources results).length) := by
  induction results with
  | nil => intro st errs succ; simp [load_pass_go, ok_sources, wrapped_causes]
  | cons hd tl ih =>
      intro st errs succ
      rw [List.all_cons, Bool.and_eq_true] at hall
      match hd with
      | .ok fields =>
          rw [load_pass_go, ih hall.2]
          simp only [ok_sources, wrapped_causes, List.filterMap_cons]
          simp [merge_into, Nat.add_assoc, Nat.add_comm 1]
      | .error (.wrapped c) =>
          rw [load_pass_go, ih hall.2]
          simp only [ok_sources, wrapped_causes, List.filterMap_cons]
          simp
      | .error (.unwrapped e) =>
          exact absurd hall.1 (by simp [noUnwrapped])

/-- Claim C6 counterexample: an absolute specification outside the absolute
base directory fails resolution with a plain SettingFileLoadError; Setting.load
does NOT wrap it into the normalized InvalidSettingFile kind, and the load pass
does not record it and continue - it propagates immediately, so the second,
perfectly loadable source is never merged, even in lenient mode. -/
theorem load_error_not_isolated_counterexample :
    resolve_module [] ⟨true, ["root"]⟩ ⟨[⟨true, ["root", "app"]⟩], []⟩
        (some ⟨false, ["app"]⟩) "/other/conf.py" = .error .settingFileLoadErr
    ∧ PyErr.isSettingFileLoadError .settingFileLoadErr = true
    ∧ PyErr.isInvalidSettingFile .settingFileLoadErr = false
    ∧ setting_load (V := Int) (.error .settingFileLoadErr) (fun _ => .ok [])
        = .error (.unwrapped .settingFileLoadErr)
    ∧ load_pass (V := Int) false
        [.error (.unwrapped .settingFileLoadErr), .ok [("A", ⟨1⟩)]]
        = .error (.propagated .settingFileLoadErr) := by
  decide

/-- Claim C6 amended: Setting.load normalizes exactly the InvalidSettingFile
family of resolution failures, and every import failure, into one wrapped
error kind carrying the original cause; for sources failing with that wrapped
kind the load pass records the error and continues to the remaining sources,
raising only the aggregate at the end - when validation is strict or nothing
loaded - and otherwise returning the successes together with the warned
errors.  Failures outside the InvalidSettingFile family (plain
SettingFileLoadError, base-path errors, contract violations) escape unwrapped
and abort the pass. -/
theorem load_wrapping_and_isolation {V : Type} (e : PyErr) (m : String)
    (importer : String → Except Unit (List (String × V)))
    (strict : Bool)
    (results : List (Except SettingLoadErr (List (String × ConstF V))))
    (hall : results.all noUnwrapped = true) :
    (e.isInvalidSettingFile = true →
      setting_load (.error e) importer = .error (.wrapped (.resolution e)))
    ∧ (e.isInvalidSettingFile = false →
      setting_load (.error e) importer = .error (.unwrapped e))
    ∧ (importer m = .error () →
      setting_load (.ok m) importer = .error (.wrapped .importFailure))
    ∧ load_pass strict results
        = (if wrapped_causes results ≠ [] ∧ (strict ∨ (ok_sources results).length = 0)
           then .error (.aggregate (wrapped_causes results))
           else .ok ((ok_sources results).foldl merge_into [], wrapped_causes results)) := by
  refine ⟨?_, ?_, ?_, ?_⟩
  · intro hw
    simp [setting_load, hw]
  · intro hw
    simp [setting_load, hw]
  · intro hi
    simp [setting_load, hi]
  · rw [load_pass, load_pass_go_no_unwrapped results hall]
    rw [Nat.zero_add]
    simp

/-- Claim C6 amended witness: one wrapped failure alongside one success, under
lenient validation - the pass continues past the failure, merges the success,
and returns the recorded cause as a warning. -/
theorem load_wrapping_and_isolation_witness :
    setting_load (V := Int) (.error .settingFileDoesNotExist) (fun _ => .ok [])
        = .error (.wrapped (.resolution .settingFileDoesNotExist))
    ∧ load_pass (V := Int) false
        [.error (.wrapped (.resolution .settingFileDoesNotExist)), .ok [("A", ⟨1⟩)]]
        = (if wrapped_causes (V := Int)
                [.error (.wrapped (.resolution .settingFileDoesNotExist)), .ok [("A", ⟨1⟩)]] ≠ []
              ∧ (false = true ∨ (ok_sources (V := Int)
                [.error (.wrapped (.resolution .settingFileDoesNotExist)), .ok [("A", ⟨1⟩)]]).length = 0)
           then .error (.aggregate (wrapped_causes
                [.error (.wrapped (.resolution .settingFileDoesNotExist)), .ok [("A", ⟨1⟩)]]))
           else .ok ((ok_sources (V := Int)
                [.error (.wrapped (.resolution .settingFileDoesNotExist)), .ok [("A", ⟨1⟩)]]).foldl
                  merge_into [],
              wrapped_causes
                [.error (.wrapped (.resolution .settingFileDoesNotExist)), .ok [("A", ⟨1⟩)]])) :=
  ⟨(load_wrapping_and_isolation (V := Int) .settingFileDoesNotExist "m" (fun _ => .ok [])
      false [] (by decide)).1 (by decide),
   (load_wrapping_and_isolation (V := Int) .settingFileDoesNotExist "m" (fun _ => .ok [])
      false [.error (.wrapped (.resolution .settingFileDoesNotExist)), .ok [("A", ⟨1⟩)]]
      (by decide)).2.2.2⟩

/-! ## Claim C2: collection order and merge precedence -/

lemma setting_fields_single {V : Type} (n : String) (v : V) :
    setting_fields [(n, v)] = [(pyUpper n, ⟨v⟩)] := by
  simp [setting_fields, store_setitem]

lemma store_setitem_fresh {V : Type} (k : String) (v : ConstF V) :
    store_setitem [] k v = [(pyUpper k, v)] := by
  simp [store_setitem]

lemma store_setitem_replace {V : Type} (k n : String) (x v : ConstF V)
    (hN : pyUpper n = k) :
    store_setitem [(k, x)] n v = [(k, v)] := by
  simp [store_setitem, hN]

/-- Claim C2: with sources named by an environment variable (sA), a
command-line value (sB) and an initialization argument (sC), each defining the
same case-insensitive field name with its own value, collection orders them
environment, command line, initialization, and the merge lets later sources
win: the field reads c; with no initialization source it reads b; with neither
it reads a. -/
theorem merge_precedence {V : Type} (envKey sA sB sC nA nB nC nU : String)
    (a b c : V) (loader : String → Except SettingLoadErr (List (String × V)))
    (hAB : ¬ sA = sB) (hAC : ¬ sA = sC) (hBC : ¬ sB = sC)
    (hlA : loader sA = .ok [(nA, a)]) (hlB : loader sB = .ok [(nB, b)])
    (hlC : loader sC = .ok [(nC, c)])
    (hA : pyUpper nA = nU) (hB : pyUpper nB = nU) (hC : pyUpper nC = nU)
    (hU : pyUpper nU = nU) :
    collect true (fun k => if k = envKey then some sA else none)
        [envKey] [some sB] [sC] = .ok [sA, sB, sC]
    ∧ settings_value true (fun k => if k = envKey then some sA else none)
        [envKey] [some sB] [sC] loader nC = some c
    ∧ settings_value true (fun k => if k = envKey then some sA else none)
        [envKey] [some sB] [] loader nB = some b
    ∧ settings_value true (fun k => if k = envKey then some sA else none)
        [envKey] [] [] loader nA = some a := by
  have hBA : ¬ sB = sA := fun h => hAB h.symm
  have hCA : ¬ sC = sA := fun h => hAC h.symm
  have hCB : ¬ sC = sB := fun h => hBC h.symm
  have hcol3 : collect true (fun k => if k = envKey then some sA else none)
      [envKey] [some sB] [sC] = .ok [sA, sB, sC] := by
    simp [collect, add_specs, hBA, hCA, hCB]
  have hcol2 : collect true (fun k => if k = envKey then some sA else none)
      [envKey] [some sB] [] = .ok [sA, sB] := by
    simp [collect, add_specs, hBA]
  have hcol1 : collect true (fun k => if k = envKey then some sA else none)
      [envKey] [] [] = .ok [sA] := by
    simp [collect, add_specs]
  refine ⟨hcol3, ?_, ?_, ?_⟩
  · rw [settings_value, hcol3]
    simp only [List.map_cons, List.map_nil, hlA, hlB, hlC, Except.map,
      setting_fields_single, hA, hB, hC]
    rw [load_pass]
    simp only [load_pass_go, List.foldl_cons, List.foldl_nil,
      store_setitem_fresh, hU, store_setitem_replace _ _ _ _ hU]
    simp only [ne_eq, not_true_eq_false, false_and, if_false, ite_false]
    rw [store_getitem, dict_getitem, hC]
    simp
  · rw [settings_value, hcol2]
    simp only [List.map_cons, List.map_nil, hlA, hlB, Except.map,
      setting_fields_single, hA, hB]
    rw [load_pass]
    simp only [load_pass_go, List.foldl_cons, List.foldl_nil,
      store_setitem_fresh, hU, store_setitem_replace _ _ _ _ hU]
    simp only [ne_eq, not_true_eq_false, false_and, if_false, ite_false]
    rw [store_getitem, dict_getitem, hB]
    simp
  · rw [settings_value, hcol1]
    simp only [List.map_cons, List.map_nil, hlA, Except.map,
      setting_fields_single, hA]
    rw [load_pass]
    simp only [load_pass_go, List.foldl_cons, List.foldl_nil,
      store_setitem_fresh, hU]
    simp only [ne_eq, not_true_eq_false, false_and, if_false, ite_false]
    rw [store_getitem, dict_getitem, hA]
    simp

/-- Claim C2 witness: three concrete sources defining TEST in different cases
and with different values. -/
theorem merge_precedence_witness :
    settings_value (V := Int) true
        (fun k => if k = "PICKY" then some "env.py" else none)
        ["PICKY"] [some "cli.py"] ["init.py"]
        (fun s => if s = "env.py" then .ok [("test", 1)]
          else if s = "cli.py" then .ok [("Test", 2)]
          else .ok [("TEST", 3)]) "TEST" = some 3 :=
  (merge_precedence "PICKY" "env.py" "cli.py" "init.py" "test" "Test" "TEST"
      "TEST" 1 2 3
      (fun s => if s = "env.py" then .ok [("test", 1)]
        else if s = "cli.py" then .ok [("Test", 2)]
        else .ok [("TEST", 3)])
      (by decide) (by decide) (by decide)
      (by decide) (by decide) (by decide)
      (by decide) (by decide) (by decide) (by decide)).2.1

/-! ## Claim C3: the 2-Component disambiguation -/

lemma name_of_parts_eq {t u : PPath} (h : t.parts = u.parts) :
    t.name = u.name := by
  simp [PPath.name, h]

lemma suffixes_eq_of_name_eq {t u : PPath} (h : t.name = u.name) :
    t.suffixes = u.suffixes := by
  simp [PPath.suffixes, h]

lemma name_absolutize (cwd : PPath) {p : PPath} (hp : p.parts ≠ []) :
    (absolutize cwd p).name = p.name := by
  unfold absolutize PPath.joinpath
  by_cases h : p.isAbs
  · simp [h]
  · simp only [h, Bool.false_eq_true, if_false, ite_false]
    simp [PPath.name, List.getLast?_append_of_ne_nil _ hp]

lemma relative_to_spec {p b r : PPath} (h : p.relative_to b = some r) :
    p.parts = b.parts ++ r.parts ∧ r.isAbs = false := by
  unfold PPath.relative_to at h
  by_cases hc : p.isAbs = b.isAbs ∧ b.parts.isPrefixOf p.parts
  · rw [if_pos hc] at h
    injection h with h2
    subst h2
    refine ⟨?_, rfl⟩
    have hpre := hc.2
    rw [List.isPrefixOf_iff_prefix] at hpre
    exact (List.prefix_iff_eq_append.mp hpre).symm
  · rw [if_neg hc] at h
    exact absurd h (by simp)

lemma raise_for_error_is_load {exts : List String} {fs : FS} {t : PPath}
    {e : PyErr} (hsuf : t.suffixes.length = 1)
    (h : raise_for_absolute_path exts fs t = .error e) :
    e.isSettingFileLoadError = true := by
  unfold raise_for_absolute_path at h
  rw [if_neg (by simp [hsuf])] at h
  split_ifs at h <;> injection h with h2 <;> subst h2 <;> rfl

lemma raise_branch_error {exts : List String} {fs : FS} {t : PPath} {e : PyErr}
    (hsuf : t.suffixes.length = 1)
    (h : (match raise_for_absolute_path exts fs t with
          | Except.error e2 => (Except.error e2 : Except PyErr PPath)
          | Except.ok _ => Except.ok t) = Except.error e) :
    e.isSettingFileLoadError = true := by
  cases hr : raise_for_absolute_path exts fs t with
  | error e2 =>
      simp only [hr] at h
      injection h with h2
      subst h2
      exact raise_for_error_is_load hsuf hr
  | ok u =>
      simp only [hr] at h
      exact Except.noConfusion h

lemma get_absolute_error_is_load (exts : List String) (cwd : PPath) (fs : FS)
    (bd : Option PPath) {fp : PPath} {e : PyErr}
    (hne : fp.parts ≠ []) (hsuf : fp.suffixes.length = 1)
    (h : get_absolute_file_path exts cwd fs bd fp = .error e) :
    e.isSettingFileLoadError = true := by
  match bd with
  | none =>
      have hs : (absolutize cwd fp).suffixes.length = 1 := by
        rw [suffixes_eq_of_name_eq (name_absolutize cwd hne)]
        exact hsuf
      exact raise_branch_error hs h
  | some bp =>
      simp only [get_absolute_file_path] at h
      by_cases h1 : fs.isFile (absolutize cwd bp)
      · rw [if_pos h1] at h
        injection h with h2
        subst h2
        rfl
      · rw [if_neg h1] at h
        by_cases h2x : fs.pathExists (absolutize cwd bp)
        · rw [if_neg (by simpa using h2x)] at h
          by_cases hfa : fp.isAbs
          · rw [if_pos hfa] at h
            cases hrel : fp.relative_to (absolutize cwd bp) with
            | none =>
                simp only [hrel] at h
                injection h with h2
                subst h2
                rfl
            | some rel =>
                simp only [hrel] at h
                exact raise_branch_error hsuf h
          · rw [if_neg hfa] at h
            cases hrel : fp.relative_to bp with
            | some rel =>
                simp only [hrel] at h
                obtain ⟨hparts, habs⟩ := relative_to_spec hrel
                have hjoin : (bp.joinpath rel).parts = fp.parts := by
                  simp [PPath.joinpath, habs, hparts]
                have hjn : (bp.joinpath rel).parts ≠ [] := by
                  rw [hjoin]; exact hne
                have hs : (absolutize cwd (bp.joinpath rel)).suffixes.length = 1 := by
                  rw [suffixes_eq_of_name_eq ((name_absolutize cwd hjn).trans
                    (name_of_parts_eq hjoin))]
                  exact hsuf
                exact raise_branch_error hs h
            | none =>
                simp only [hrel] at h
                cases hrel2 : (absolutize cwd fp).relative_to (absolutize cwd bp) with
                | some rel2 =>
                    simp only [hrel2] at h
                    obtain ⟨hparts2, habs2⟩ := relative_to_spec hrel2
                    have hjoin2 : ((absolutize cwd bp).joinpath rel2).parts
                        = (absolutize cwd fp).parts := by
                      simp [PPath.joinpath, habs2, hparts2]
                    have hs : (((absolutize cwd bp).joinpath rel2)).suffixes.length = 1 := by
                      rw [suffixes_eq_of_name_eq ((name_of_parts_eq hjoin2).trans
                        (name_absolutize cwd hne))]
                      exact hsuf
                    exact raise_branch_error hs h
                | none =>
                    simp only [hrel2] at h
                    have hfa2 : fp.isAbs = false := by
                      simpa using hfa
                    have hjoin3 : (bp.joinpath fp).parts = bp.parts ++ fp.parts := by
                      simp [PPath.joinpath, hfa2]
                    have hjn3 : (bp.joinpath fp).parts ≠ [] := by
                      rw [hjoin3]
                      intro hcon
                      exact hne (List.append_eq_nil.mp hcon).2
                    have hjname : (bp.joinpath fp).name = fp.name := by
                      rw [PPath.name, hjoin3, List.getLast?_append_of_ne_nil _ hne]
                      rfl
                    have hs : (absolutize cwd (bp.joinpath fp)).suffixes.length = 1 := by
                      rw [suffixes_eq_of_name_eq ((name_absolutize cwd hjn3).trans hjname)]
                      exact hsuf
                    exact raise_branch_error hs h
        · rw [if_pos (by simpa using h2x)] at h
          injection h with h2
          subst h2
          rfl

lemma withSuffix_parts_ne_nil {p q : PPath} {suf : String}
    (h : p.withSuffix suf = some q) : q.parts ≠ [] := by
  unfold PPath.withSuffix at h
  cases hl : p.parts.getLast? with
  | none => rw [hl] at h; exact absurd h (by simp)
  | some n =>
      rw [hl] at h
      injection h with h2
      subst h2
      simp

lemma join_with_suffix_parts_ne_nil {parts : List String} {p : PPath}
    (h : join_with_suffix parts = .ok p) : p.parts ≠ [] := by
  unfold join_with_suffix at h
  cases hw : (parsePosixPath (strJoin '/' parts)).withSuffix ".py" with
  | none => rw [hw] at h; exact absurd h (by simp)
  | some q =>
      rw [hw] at h
      injection h with h2
      subst h2
      exact withSuffix_parts_ne_nil hw

/-- Claim C3: for a specification containing a dot but no slash, with exactly
two dot-parts an empty first part raises UnsupportedFileType and an empty
second part raises InvalidFileFormat; with two nonempty parts the string is
tentatively synthesized as a module path and its absolute resolution attempted
purely as side validation - if that attempt fails, for any reason it can fail,
the original string is silently reinterpreted as a literal two-segment file
path with no extension inference, and on success the synthesized module path
is kept; with more than two dot-parts the string is always the module path
obtained by joining the parts and appending the default extension. -/
theorem two_component_disambiguation (exts : List String) (cwd : PPath)
    (fs : FS) (bd : Option PPath) (s : String)
    (hdot : strContains s '.' = true) (hslash : strContains s '/' = false) :
    (∀ b2, strSplit '.' s = ["", b2] →
        get_file_path exts cwd fs bd s = .error .unsupportedFileType)
    ∧ (∀ a2, a2 ≠ "" → strSplit '.' s = [a2, ""] →
        get_file_path exts cwd fs bd s = .error .invalidFileFormat)
    ∧ (∀ a2 b2 p, a2 ≠ "" → b2 ≠ "" → strSplit '.' s = [a2, b2] →
        join_with_suffix [a2, b2] = .ok p → p.suffixes.length = 1 →
        (∀ e, get_absolute_file_path exts cwd fs bd p = .error e →
            get_file_path exts cwd fs bd s = .ok (parsePosixPath s))
        ∧ (∀ q, get_absolute_file_path exts cwd fs bd p = .ok q →
            get_file_path exts cwd fs bd s = .ok p))
    ∧ (∀ parts, strSplit '.' s = parts → 2 < parts.length →
        get_file_path exts cwd fs bd s = join_with_suffix parts) := by
  refine ⟨?_, ?_, ?_, ?_⟩
  · intro b2 hsplit
    simp [get_file_path, hdot, hslash, hsplit]
  · intro a2 ha hsplit
    simp [get_file_path, hdot, hslash, hsplit, ha]
  · intro a2 b2 p ha hb hsplit hjoin hsuf
    have hne : p.parts ≠ [] := join_with_suffix_parts_ne_nil hjoin
    constructor
    · intro e hget
      have hload := get_absolute_error_is_load exts cwd fs bd hne hsuf hget
      simp [get_file_path, hdot, hslash, hsplit, ha, hb, hjoin, hget, hload]
    · intro q hget
      simp [get_file_path, hdot, hslash, hsplit, ha, hb, hjoin, hget]
  · intro parts hsplit hlen
    match parts, hsplit with
    | x :: y :: z :: t3, hsplit =>
        simp [get_file_path, hdot, hslash, hsplit]
    | [x, y], hsplit => simp at hlen
    | [x], hsplit => simp at hlen
    | [], hsplit => simp at hlen

/-- Claim C3 witness: the three regimes on concrete specifications - a module
interpretation that resolves and is kept, one that fails and falls back to the
literal file path, and a three-part module string. -/
theorem two_component_disambiguation_witness :
    get_file_path [] ⟨true, ["root"]⟩
        ⟨[⟨true, ["root"]⟩, ⟨true, ["root", "app"]⟩,
          ⟨true, ["root", "app", "settings"]⟩],
         [⟨true, ["root", "app", "settings", "dev.py"]⟩]⟩
        (some ⟨false, ["app"]⟩) "settings.dev"
        = .ok ⟨false, ["settings", "dev.py"]⟩
    ∧ get_file_path [] ⟨true, ["root"]⟩
        ⟨[⟨true, ["root"]⟩, ⟨true, ["root", "app"]⟩,
          ⟨true, ["root", "app", "settings"]⟩],
         [⟨true, ["root", "app", "settings", "dev.py"]⟩]⟩
        (some ⟨false, ["app"]⟩) "develop.dev"
        = .ok (parsePosixPath "develop.dev")
    ∧ get_file_path [] ⟨true, ["root"]⟩
        ⟨[⟨true, ["root"]⟩, ⟨true, ["root", "app"]⟩,
          ⟨true, ["root", "app", "settings"]⟩],
         [⟨true, ["root", "app", "settings", "dev.py"]⟩]⟩
        (some ⟨false, ["app"]⟩) ".gitignore"
        = .error .unsupportedFileType
    ∧ get_file_path [] ⟨true, ["root"]⟩
        ⟨[⟨true, ["root"]⟩, ⟨true, ["root", "app"]⟩,
          ⟨true, ["root", "app", "settings"]⟩],
         [⟨true, ["root", "app", "settings", "dev.py"]⟩]⟩
        (some ⟨false, ["app"]⟩) "name."
        = .error .invalidFileFormat
    ∧ get_file_path [] ⟨true, ["root"]⟩
        ⟨[⟨true, ["root"]⟩, ⟨true, ["root", "app"]⟩,
          ⟨true, ["root", "app", "settings"]⟩],
         [⟨true, ["root", "app", "settings", "dev.py"]⟩]⟩
        (some ⟨false, ["app"]⟩) "a.b.c"
        = join_with_suffix ["a", "b", "c"] :=
  ⟨((two_component_disambiguation [] ⟨true, ["root"]⟩
      ⟨[⟨true, ["root"]⟩, ⟨true, ["root", "app"]⟩,
        ⟨true, ["root", "app", "settings"]⟩],
       [⟨true, ["root", "app", "settings", "dev.py"]⟩]⟩
      (some ⟨false, ["app"]⟩) "settings.dev" (by decide) (by decide)).2.2.1
      "settings" "dev" ⟨false, ["settings", "dev.py"]⟩ (by decide) (by decide)
      (by decide) (by decide) (by decide)).2
      ⟨true, ["root", "app", "settings", "dev.py"]⟩ (by decide),
   ((two_component_disambiguation [] ⟨true, ["root"]⟩
      ⟨[⟨true, ["root"]⟩, ⟨true, ["root", "app"]⟩,
        ⟨true, ["root", "app", "settings"]⟩],
       [⟨true, ["root", "app", "settings", "dev.py"]⟩]⟩
      (some ⟨false, ["app"]⟩) "develop.dev" (by decide) (by decide)).2.2.1
      "develop" "dev" ⟨false, ["develop", "dev.py"]⟩ (by decide) (by decide)
      (by decide) (by decide) (by decide)).1
      .settingFileDirDoesNotExist (by decide),
   (two_component_disambiguation [] ⟨true, ["root"]⟩
      ⟨[⟨true, ["root"]⟩, ⟨true, ["root", "app"]⟩,
        ⟨true, ["root", "app", "settings"]⟩],
       [⟨true, ["root", "app", "settings", "dev.py"]⟩]⟩
      (some ⟨false, ["app"]⟩) ".gitignore" (by decide) (by decide)).1
      "gitignore" (by decide),
   (two_component_disambiguation [] ⟨true, ["root"]⟩
      ⟨[⟨true, ["root"]⟩, ⟨true, ["root", "app"]⟩,
        ⟨true, ["root", "app", "settings"]⟩],
       [⟨true, ["root", "app", "settings", "dev.py"]⟩]⟩
      (some ⟨false, ["app"]⟩) "name." (by decide) (by decide)).2.1
      "name" (by decide) (by decide),
   (two_component_disambiguation [] ⟨true, ["root"]⟩
      ⟨[⟨true, ["root"]⟩, ⟨true, ["root", "app"]⟩,
        ⟨true, ["root", "app", "settings"]⟩],
       [⟨true, ["root", "app", "settings", "dev.py"]⟩]⟩
      (some ⟨false, ["app"]⟩) "a.b.c" (by decide) (by decide)).2.2.2
      ["a", "b", "c"] (by decide) (by decide)⟩

end PickySettings
